import Mathlib

/-!
A verification development for the PTY-conductor service: a shallow embedding
of the worker runtime (sentinel-framed result extraction), the PTY watcher
state machine, the regex classifier, the tmux capture cursor, and the
design-refinement critic, together with theorems about their behaviour.

Python strings are modelled as Lean strings, Python `None` as `Option.none`,
JSON values (the results of `json.loads`) as the inductive `JsonV`, database
rows as Lean structures and the database session as explicit state passing.
-/

namespace AgentBay

/-- JSON values as returned by a successful `json.loads`.  Numbers are kept as
a decimal mantissa together with a power-of-ten exponent, which determines
Python truthiness exactly (a JSON number is falsy iff its mantissa is zero).
`JsonV.null` models Python `None`. -/
inductive JsonV where
  | null : JsonV
  | bool : Bool → JsonV
  | num : Int → Int → JsonV
  | str : String → JsonV
  | arr : List JsonV → JsonV
  | obj : List (String × JsonV) → JsonV

/-- Python truthiness of a JSON value: `None`, `False`, `0`, `""`, `[]` and
an empty dict are falsy, everything else is truthy. -/
def JsonV.truthy : JsonV → Bool
  | .null => false
  | .bool b => b
  | .num m _ => !(m == 0)
  | .str s => !(s == "")
  | .arr xs => !xs.isEmpty
  | .obj kvs => !kvs.isEmpty

/-- Whether a JSON value is an object (a Python dict, the only values with a
`.get` method). -/
def JsonV.isObj : JsonV → Bool
  | .obj _ => true
  | _ => false

/-- Python `dict.get(key)` on a parsed JSON object; with duplicate keys the
later entry wins, as in `json.loads`. -/
def objGet (kvs : List (String × JsonV)) (key : String) : Option JsonV :=
  kvs.foldl (fun acc kv => if kv.1 == key then some kv.2 else acc) none

/-- Python `x or dflt` on an optional JSON value: the value when truthy,
otherwise the default. -/
def pyOr (o : Option JsonV) (dflt : JsonV) : JsonV :=
  match o with
  | some v => if v.truthy then v else dflt
  | none => dflt

/-- Python truthiness of an optional string (`None` and `""` are falsy). -/
def optStrTruthy : Option String → Bool
  | none => false
  | some s => !(s == "")

/-! ### A small model of `json.loads`

A recursive-descent parser for the JSON grammar (value, object, array,
string with escapes, number, `true`/`false`/`null`), consuming the whole
input up to trailing whitespace, as `json.loads` does. -/

/-- JSON structural whitespace (space, tab, newline, carriage return). -/
def jsonWs (c : Char) : Bool := c == ' ' || c == '\t' || c == '\n' || c == '\r'

/-- Drop leading JSON whitespace. -/
def skipJsonWs : List Char → List Char
  | [] => []
  | c :: cs => if jsonWs c then skipJsonWs cs else c :: cs

/-- Value of one hexadecimal digit. -/
def hexVal (c : Char) : Option Nat :=
  if '0' ≤ c ∧ c ≤ '9' then some (c.toNat - '0'.toNat)
  else if 'a' ≤ c ∧ c ≤ 'f' then some (c.toNat - 'a'.toNat + 10)
  else if 'A' ≤ c ∧ c ≤ 'F' then some (c.toNat - 'A'.toNat + 10)
  else none

/-- Parse the body of a JSON string (after the opening quote), handling the
escape sequences of the JSON grammar; returns the string and the rest of the
input after the closing quote. -/
def parseJsonString : List Char → List Char → Option (String × List Char)
  | _, [] => none
  | acc, '"' :: rest => some (String.mk acc.reverse, rest)
  | acc, '\\' :: '"' :: rest => parseJsonString ('"' :: acc) rest
  | acc, '\\' :: '\\' :: rest => parseJsonString ('\\' :: acc) rest
  | acc, '\\' :: '/' :: rest => parseJsonString ('/' :: acc) rest
  | acc, '\\' :: 'b' :: rest => parseJsonString ('\x08' :: acc) rest
  | acc, '\\' :: 'f' :: rest => parseJsonString ('\x0c' :: acc) rest
  | acc, '\\' :: 'n' :: rest => parseJsonString ('\n' :: acc) rest
  | acc, '\\' :: 'r' :: rest => parseJsonString ('\r' :: acc) rest
  | acc, '\\' :: 't' :: rest => parseJsonString ('\t' :: acc) rest
  | acc, '\\' :: 'u' :: h1 :: h2 :: h3 :: h4 :: rest =>
      match hexVal h1, hexVal h2, hexVal h3, hexVal h4 with
      | some a, some b, some c, some d =>
          parseJsonString (Char.ofNat (((a * 16 + b) * 16 + c) * 16 + d) :: acc) rest
      | _, _, _, _ => none
  | _, '\\' :: _ => none
  | acc, c :: rest => if c.toNat < 0x20 then none else parseJsonString (c :: acc) rest

/-- Take a maximal run of decimal digits. -/
def takeDigits : List Char → List Char × List Char
  | [] => ([], [])
  | c :: cs =>
      if c.isDigit then
        let (d, r) := takeDigits cs
        (c :: d, r)
      else ([], c :: cs)

/-- Decimal digits to a natural number. -/
def digitsToNat (ds : List Char) : Nat :=
  ds.foldl (fun a c => a * 10 + (c.toNat - '0'.toNat)) 0

/-- Parse an optional fractional part (after the integer part). -/
def parseFracPart : List Char → Option (List Char × List Char)
  | '.' :: rest =>
      match takeDigits rest with
      | ([], _) => none
      | (ds, r) => some (ds, r)
  | cs => some ([], cs)

/-- Parse an optional exponent part; returns the signed exponent. -/
def parseExpPart : List Char → Option (Int × List Char)
  | [] => some (0, [])
  | c :: rest =>
      if c == 'e' || c == 'E' then
        let (sgn, rest1) : Int × List Char :=
          match rest with
          | '+' :: r => (1, r)
          | '-' :: r => (-1, r)
          | r => (1, r)
        match takeDigits rest1 with
        | ([], _) => none
        | (ds, r) => some (sgn * Int.ofNat (digitsToNat ds), r)
      else some (0, c :: rest)

/-- Parse a JSON number (grammar: `-? int frac? exp?`, no leading zeros). -/
def parseNumber (cs : List Char) : Option (JsonV × List Char) :=
  let (neg, cs1) : Bool × List Char :=
    match cs with
    | '-' :: r => (true, r)
    | r => (false, r)
  match takeDigits cs1 with
  | ([], _) => none
  | (ds, r1) =>
    if 1 < ds.length ∧ ds.head? = some '0' then none
    else
      match parseFracPart r1 with
      | none => none
      | some (fds, r2) =>
        match parseExpPart r2 with
        | none => none
        | some (e, r3) =>
          let mag : Nat := digitsToNat (ds ++ fds)
          let m : Int := if neg then -(Int.ofNat mag) else Int.ofNat mag
          some (JsonV.num m (e - Int.ofNat fds.length), r3)

mutual

/-- Parse one JSON value (fuel-indexed recursive descent). -/
def parseVal : Nat → List Char → Option (JsonV × List Char)
  | 0, _ => none
  | fuel + 1, cs =>
    match skipJsonWs cs with
    | 'n' :: 'u' :: 'l' :: 'l' :: rest => some (JsonV.null, rest)
    | 't' :: 'r' :: 'u' :: 'e' :: rest => some (JsonV.bool true, rest)
    | 'f' :: 'a' :: 'l' :: 's' :: 'e' :: rest => some (JsonV.bool false, rest)
    | '"' :: rest =>
        match parseJsonString [] rest with
        | some (s, r) => some (JsonV.str s, r)
        | none => none
    | '[' :: rest =>
        match skipJsonWs rest with
        | ']' :: r => some (JsonV.arr [], r)
        | cs2 =>
            match parseVal fuel cs2 with
            | some (v, r) =>
                match parseArrTail fuel r with
                | some (vs, r2) => some (JsonV.arr (v :: vs), r2)
                | none => none
            | none => none
    | '{' :: rest =>
        match skipJsonWs rest with
        | '}' :: r => some (JsonV.obj [], r)
        | cs2 =>
            match parseMember fuel cs2 with
            | some (kv, r) =>
                match parseObjTail fuel r with
                | some (kvs, r2) => some (JsonV.obj (kv :: kvs), r2)
                | none => none
            | none => none
    | c :: rest => if c == '-' || c.isDigit then parseNumber (c :: rest) else none
    | [] => none

/-- Parse the tail of a JSON array (after the first element). -/
def parseArrTail : Nat → List Char → Option (List JsonV × List Char)
  | 0, _ => none
  | fuel + 1, cs =>
    match skipJsonWs cs with
    | ']' :: r => some ([], r)
    | ',' :: r =>
        match parseVal fuel r with
        | some (v, r2) =>
            match parseArrTail fuel r2 with
            | some (vs, r3) => some (v :: vs, r3)
            | none => none
        | none => none
    | _ => none

/-- Parse one `"key": value` member of a JSON object. -/
def parseMember : Nat → List Char → Option ((String × JsonV) × List Char)
  | 0, _ => none
  | fuel + 1, cs =>
    match skipJsonWs cs with
    | '"' :: rest =>
        match parseJsonString [] rest with
        | some (k, r) =>
            match skipJsonWs r with
            | ':' :: r2 =>
                match parseVal fuel r2 with
                | some (v, r3) => some ((k, v), r3)
                | none => none
            | _ => none
        | none => none
    | _ => none

/-- Parse the tail of a JSON object (after the first member). -/
def parseObjTail : Nat → List Char → Option (List (String × JsonV) × List Char)
  | 0, _ => none
  | fuel + 1, cs =>
    match skipJsonWs cs with
    | '}' :: r => some ([], r)
    | ',' :: r =>
        match parseMember fuel r with
        | some (kv, r2) =>
            match parseObjTail fuel r2 with
            | some (kvs, r3) => some (kv :: kvs, r3)
            | none => none
        | none => none
    | _ => none

end

/-- Model of `json.loads`: parse one JSON value, requiring the whole input to
be consumed up to trailing whitespace; `none` models `json.JSONDecodeError`. -/
def jsonLoads (s : String) : Option JsonV :=
  match parseVal (s.data.length + 1) s.data with
  | some (v, rest) => if (skipJsonWs rest).isEmpty then some v else none
  | none => none

/-! ### String helpers mirroring Python -/

/-- Python `str.isspace` characters relevant to `str.strip()` / `str.split()`. -/
def pyIsSpace (c : Char) : Bool :=
  c == ' ' || c == '\t' || c == '\n' || c == '\r' || c == '\x0b' || c == '\x0c'

/-- Python `str.strip()`: remove leading and trailing whitespace. -/
def pyStrip (s : String) : String :=
  String.mk (((s.data.dropWhile pyIsSpace).reverse.dropWhile pyIsSpace).reverse)

/-- Whether `needle` is a leading segment of `hay`. -/
def startsWithChars : List Char → List Char → Bool
  | [], _ => true
  | _ :: _, [] => false
  | a :: as, b :: bs => a == b && startsWithChars as bs

/-- Whether `needle` occurs contiguously inside `hay`. -/
def hasSubChars (needle : List Char) : List Char → Bool
  | [] => needle.isEmpty
  | c :: rest => startsWithChars needle (c :: rest) || hasSubChars needle rest

/-- Python `sub in s` on strings (contiguous substring). -/
def strContains (s sub : String) : Bool := hasSubChars sub.data s.data

/-- Python `str.split()` with no separator: count of maximal runs of
non-whitespace characters (`len(s.split())`); the flag records whether the
scan is currently inside a word. -/
def countWordsAux : List Char → Bool → Nat
  | [], _ => 0
  | c :: cs, inWord =>
      if pyIsSpace c then countWordsAux cs false
      else (if inWord then 0 else 1) + countWordsAux cs true

/-- Number of whitespace-separated words of a string (`len(s.split())`). -/
def wordCount (s : String) : Nat := countWordsAux s.data false

/-! ### Data model (app/models.py, app/enums.py)

Only the columns touched by the monitored code paths are modelled.
Timestamps are abstract instants (`Nat`). -/

inductive WorkerStatus where
  | idle | busy | error | terminated
  deriving DecidableEq, Repr

inductive TaskStatus where
  | queued | running | completed | failed
  deriving DecidableEq, Repr

inductive TaskEventType where
  | stdout_chunk | stderr_chunk | state_change | result_parsed
  deriving DecidableEq, Repr

inductive FlowStatus where
  | running | completed | failed
  deriving DecidableEq, Repr

structure Task where
  id : String
  worker_id : String
  flow_id : Option String
  status : TaskStatus
  result_json : Option JsonV
  error_message : Option JsonV
  started_at : Option Nat
  finished_at : Option Nat

structure TaskEvent where
  task_id : String
  type : TaskEventType
  payload : JsonV

structure Flow where
  id : String
  status : FlowStatus
  worker_id : String
  result : Option JsonV

structure Worker where
  id : String
  status : WorkerStatus
  last_seen_at : Option Nat

/-- The relational store visible to the worker runtime.  `events` is the
append-only audit log; a commit appends the pending events. -/
structure DB where
  tasks : List Task
  flows : List Flow
  workers : List Worker
  events : List TaskEvent

def findTask (db : DB) (tid : String) : Option Task :=
  db.tasks.find? (fun t => t.id == tid)

def updateTask (db : DB) (t : Task) : DB :=
  { db with tasks := db.tasks.map (fun u => if u.id = t.id then t else u) }

def findFlow (db : DB) (fid : String) : Option Flow :=
  db.flows.find? (fun f => f.id == fid)

def updateFlow (db : DB) (f : Flow) : DB :=
  { db with flows := db.flows.map (fun u => if u.id = f.id then f else u) }

def findWorker (db : DB) (wid : String) : Option Worker :=
  db.workers.find? (fun w => w.id == wid)

def updateWorker (db : DB) (w : Worker) : DB :=
  { db with workers := db.workers.map (fun u => if u.id = w.id then w else u) }

/-! ### WorkerRuntime (app/services/runtime.py) -/

/-- The sentinel marking the start of a framed tool result
(`settings.sentinel_start`). -/
def sentinel_start : String := "<<<AGENT_RESULT_START>>>"

/-- The sentinel marking the end of a framed tool result
(`settings.sentinel_end`). -/
def sentinel_end : String := "<<<AGENT_RESULT_END>>>"

/-- The mutable per-worker monitor state of `WorkerRuntime`:
`_collecting_task_id`, `_result_lines` and the `running_tasks` deque
(head first). -/
structure RuntimeState where
  collecting_task_id : Option String
  result_lines : List String
  running_tasks : List String

/-- Python `deque.remove`: drop the first occurrence (no-op when absent,
matching the `if task_id in self.running_tasks` guard around the call). -/
def removeFirst : List String → String → List String
  | [], _ => []
  | x :: xs, y => if x = y then xs else x :: removeFirst xs y

/-- Whether a parsed result status denotes failure:
`result_status in {"failed", "error"}`. -/
def isFailureStatus : Option JsonV → Bool
  | some (JsonV.str s) => s == "failed" || s == "error"
  | _ => false

/-- Lines 90-101 of `_finalize_result`: from the `json.loads` outcome compute
`(result, status, error_message)`.  `Except.error ()` models the uncaught
`AttributeError` raised by `(result or {}).get("status")` when the parsed
value is truthy but not a dict. -/
def payloadVerdict (parsed : Option JsonV) :
    Except Unit (Option JsonV × TaskStatus × Option JsonV) :=
  match parsed with
  | none =>
      .ok (none, TaskStatus.failed, some (JsonV.str "Invalid JSON result from tool"))
  | some v =>
      match (if v.truthy then v else JsonV.obj []) with
      | JsonV.obj kvs =>
          if isFailureStatus (objGet kvs "status") then
            .ok (some v, TaskStatus.failed, objGet kvs "error")
          else
            .ok (some v, TaskStatus.completed, none)
      | _ => .error ()

/-- The finalized task row: result, error message, terminal status,
`finished_at = now` and `started_at = started_at ?? now`. -/
def finalizedTask (task : Task) (result : Option JsonV) (status : TaskStatus)
    (errorMessage : Option JsonV) (now : Nat) : Task :=
  { task with
    result_json := result
    error_message := errorMessage
    status := status
    finished_at := some now
    started_at := match task.started_at with
      | some t => some t
      | none => some now }

/-- The `result_parsed` audit event appended by `_finalize_result`. -/
def resultParsedEvent (taskId : String) (result : Option JsonV)
    (errorMessage : Option JsonV) : TaskEvent :=
  { task_id := taskId
    type := TaskEventType.result_parsed
    payload := JsonV.obj
      [("result", result.getD JsonV.null), ("error", errorMessage.getD JsonV.null)] }

/-- Lines 126-133 of `_finalize_result`: when the final status is failed and
the task has a (truthy) `flow_id` naming an existing flow, fail that flow with
reason `task.error_message or "task_failed"` and the task id. -/
def failFlowUpdate (db : DB) (task : Task) (taskId : String) (status : TaskStatus) : DB :=
  if status = TaskStatus.failed then
    match task.flow_id with
    | some fid =>
        if fid = "" then db
        else
          match findFlow db fid with
          | some flow =>
              updateFlow db
                { flow with
                  status := FlowStatus.failed
                  result := some (JsonV.obj
                    [("reason", pyOr task.error_message (JsonV.str "task_failed")),
                     ("task_id", JsonV.str taskId)]) }
          | none => db
    | none => db
  else db

/-- Lines 106-134 of `_finalize_result`, from the point where the task row was
found: write the terminal task row, append the `result_parsed` event, pop the
task from the FIFO, refresh the worker row, optionally fail the flow, and
commit (flushing the pending events into the log). -/
def commitFinalize (st : RuntimeState) (db : DB) (pending : List TaskEvent) (now : Nat)
    (taskId : String) (task : Task) (result : Option JsonV) (status : TaskStatus)
    (errorMessage : Option JsonV) : RuntimeState × DB × List TaskEvent :=
  let task2 := finalizedTask task result status errorMessage now
  let db1 := updateTask db task2
  let pending1 := pending ++ [resultParsedEvent taskId result errorMessage]
  let running1 := removeFirst st.running_tasks taskId
  let st1 := { st with running_tasks := running1 }
  let db2 :=
    match findWorker db1 task2.worker_id with
    | some w =>
        updateWorker db1
          { w with
            status := if running1.isEmpty then WorkerStatus.idle else WorkerStatus.busy
            last_seen_at := some now }
    | none => db1
  let db3 := failFlowUpdate db2 task2 taskId status
  (st1, { db3 with events := db3.events ++ pending1 }, [])

/-- `WorkerRuntime._finalize_result`: join the buffered lines, clear the
collecting state, and when a collecting task id is set, parse the payload and
commit the outcome.  `Except.error ()` models the uncaught `AttributeError`
(see `payloadVerdict`); the early returns leave the database and the pending
events untouched, since the method only commits at its end. -/
def WorkerRuntime.finalize_result (st : RuntimeState) (db : DB)
    (pending : List TaskEvent) (now : Nat) :
    Except Unit (RuntimeState × DB × List TaskEvent) :=
  let payloadText := String.intercalate "\n" st.result_lines
  let st1 := { st with collecting_task_id := none, result_lines := [] }
  match st.collecting_task_id with
  | none => .ok (st1, db, pending)
  | some taskId =>
    if taskId = "" then .ok (st1, db, pending)
    else
      match payloadVerdict (jsonLoads payloadText) with
      | .error e => .error e
      | .ok (result, status, errorMessage) =>
        match findTask db taskId with
        | none => .ok (st1, db, pending)
        | some task =>
            .ok (commitFinalize st1 db pending now taskId task result status errorMessage)

/-- The loop body of `WorkerRuntime._process_lines`: dispatch each raw line on
the sentinel markers, buffering payload lines while collecting and logging
`stdout_chunk` events against the FIFO head otherwise.  `pending` carries the
events added to the session but not yet committed. -/
def WorkerRuntime.process_lines_aux :
    List String → RuntimeState → DB → List TaskEvent → Nat →
    Except Unit (RuntimeState × DB × List TaskEvent)
  | [], st, db, pending, _ => .ok (st, db, pending)
  | raw :: rest, st, db, pending, now =>
    let stripped := pyStrip raw
    if strContains stripped sentinel_start = true then
      WorkerRuntime.process_lines_aux rest
        { st with collecting_task_id := st.running_tasks.head?, result_lines := [] }
        db pending now
    else if strContains stripped sentinel_end = true then
      match WorkerRuntime.finalize_result st db pending now with
      | .error e => .error e
      | .ok (st2, db2, pending2) =>
          WorkerRuntime.process_lines_aux rest st2 db2 pending2 now
    else if optStrTruthy st.collecting_task_id = true then
      WorkerRuntime.process_lines_aux rest
        { st with result_lines := st.result_lines ++ [raw] } db pending now
    else
      match st.running_tasks with
      | tid :: _ =>
          WorkerRuntime.process_lines_aux rest st db
            (pending ++ [{ task_id := tid, type := TaskEventType.stdout_chunk,
                           payload := JsonV.obj [("line", JsonV.str raw)] }]) now
      | [] => WorkerRuntime.process_lines_aux rest st db pending now

/-- `WorkerRuntime._process_lines`: process a batch of captured lines and
commit the remaining pending events at the end; an uncaught exception aborts
the batch and the uncommitted events are lost. -/
def WorkerRuntime.process_lines (lines : List String) (st : RuntimeState)
    (db : DB) (now : Nat) : Except Unit (RuntimeState × DB) :=
  if lines.isEmpty then .ok (st, db)
  else
    match WorkerRuntime.process_lines_aux lines st db [] now with
    | .error e => .error e
    | .ok (st2, db2, pending) => .ok (st2, { db2 with events := db2.events ++ pending })

/-! ### Classifier pack and regex classifier (app/services/pty_watcher.py)

Each compiled regex is modelled by its `re.search` behaviour, a function
`String → Bool`; the classifier only ever asks whether some pattern of a list
matches. -/

/-- Outcome of a classification: state label, summary, optional guidance. -/
structure ClassificationResult where
  state : String
  summary : String
  actions_needed : Option String

/-- A loaded classifier pack: the stability threshold and the four lists of
compiled regex cues, each modelled by its match function. -/
structure ClassifierPack where
  name : String
  stability_polls : Nat
  idle_regexes : List (String → Bool)
  busy_regexes : List (String → Bool)
  confirm_regexes : List (String → Bool)
  error_regexes : List (String → Bool)

/-- `RegexClassifier._match_any`: whether any pattern of the list matches. -/
def matchAny (patterns : List (String → Bool)) (text : String) : Bool :=
  patterns.any (fun p => p text)

/-- `RegexClassifier.classify`: first match wins in precedence
error → confirmation → busy → idle → default READY. -/
def RegexClassifier.classify (pack : ClassifierPack) (snapshot : String) :
    ClassificationResult :=
  if matchAny pack.error_regexes snapshot = true then
    { state := "ERROR"
      summary := "Detected error output"
      actions_needed := some "Inspect the PTY logs to unblock the worker." }
  else if matchAny pack.confirm_regexes snapshot = true then
    { state := "NEEDS_CONFIRMATION"
      summary := "Tool is waiting for explicit confirmation"
      actions_needed := some "Answer the confirmation prompt in the PTY." }
  else if matchAny pack.busy_regexes snapshot = true then
    { state := "BUSY", summary := "Workload still running", actions_needed := none }
  else if matchAny pack.idle_regexes snapshot = true then
    { state := "READY", summary := "Idle prompt detected", actions_needed := none }
  else
    { state := "READY", summary := "No activity detected in snapshot", actions_needed := none }

/-! ### PtyWatcher pane state machine (app/services/pty_watcher.py) -/

/-- `settings.watcher_default_stability`. -/
def watcher_default_stability : Nat := 3

/-- The in-memory `PaneState` kept per pane by the watcher. -/
structure PaneState where
  last_snapshot_hash : Option String
  last_classified_hash : Option String
  stable_count : Nat
  last_change_ts : Nat
  state : String
  summary : String
  actions_needed : Option String
  threshold : Nat

/-- The effective threshold `pane_state.threshold or settings.watcher_default_stability`
(Python `or` on an int replaces 0 by the default). -/
def effectiveThreshold (ps : PaneState) : Nat :=
  if ps.threshold = 0 then watcher_default_stability else ps.threshold

/-- One cycle of `PtyWatcher._process_pane` for a pane, after the snapshot was
captured, ANSI-stripped and hashed: on a hash change reset the stability
counter and mark the pane BUSY; on a stable hash count up and, once the
threshold is reached and the hash was not classified yet, run the classifier
and record the classified hash.  The boolean reports whether the classifier
was invoked this cycle. -/
def PtyWatcher.process_pane (classifier : String → ClassificationResult)
    (stripped : String) (ps : PaneState) (snapshotHash : String) (ts : Nat) :
    PaneState × Bool :=
  if ps.last_snapshot_hash ≠ some snapshotHash then
    ({ ps with
        last_snapshot_hash := some snapshotHash
        stable_count := 0
        last_change_ts := ts
        state := "BUSY"
        summary := "Pane output changing"
        actions_needed := none }, false)
  else
    if ps.stable_count + 1 ≥ effectiveThreshold ps ∧
        ps.last_classified_hash ≠ some snapshotHash then
      let r := classifier stripped
      ({ ps with
          stable_count := ps.stable_count + 1
          state := r.state
          summary := r.summary
          actions_needed := r.actions_needed
          last_classified_hash := some snapshotHash }, true)
    else ({ ps with stable_count := ps.stable_count + 1 }, false)

/-- Iterated polling cycles over one pane: thread the pane state through a
list of (snapshot hash, timestamp) observations, collecting the
classifier-invocation flags in order. -/
def PtyWatcher.pane_run (classifier : String → ClassificationResult)
    (stripped : String) : PaneState → List (String × Nat) → PaneState × List Bool
  | ps, [] => (ps, [])
  | ps, (h, t) :: rest =>
      let (ps1, b) := PtyWatcher.process_pane classifier stripped ps h t
      let (ps2, bs) := PtyWatcher.pane_run classifier stripped ps1 rest
      (ps2, b :: bs)

/-- Number of cycles in which the classifier ran. -/
def countClassified (bs : List Bool) : Nat := (bs.filter (fun b => b)).length

/-! ### TmuxController (app/services/tmux.py) -/

/-- The cursor state of a `TmuxController` (`self._last_size`). -/
structure TmuxControllerState where
  last_size : Nat

/-- A freshly constructed controller: cursor at 0. -/
def TmuxController.init : TmuxControllerState := { last_size := 0 }

/-- The value returned by `capture_pane`. -/
structure PaneSnapshot where
  text : String
  new_text : String

/-- `TmuxController.capture_pane`, as a function of the cursor state and the
full pane text captured by tmux: emit the delta since the cursor when the text
has not shrunk, the whole text otherwise (pane-cleared heuristic), and move
the cursor to the end of the text. -/
def TmuxController.capture_pane (st : TmuxControllerState) (text : String) :
    PaneSnapshot × TmuxControllerState :=
  let new_text := if st.last_size ≤ text.length then text.drop st.last_size else text
  ({ text := text, new_text := new_text }, { last_size := text.length })

/-! ### Design-refinement critic (app/flows/design_refinement.py) -/

/-- The record built by `_run_carmack_critic`. -/
structure CriticResult where
  persona : String
  score : Nat
  issues : List String
  suggestions : String
  iteration : Nat

/-- Number of occurrences of the character `#` in a string
(`content.count("#")`). -/
def headingCount (content : String) : Nat := content.data.count '#'

/-- `DesignRefinementCoordinator._run_carmack_critic`, as a function of the
current content of `design.md` (`none` when the file is missing, which reads
as empty content) and the iteration index. -/
def DesignRefinementCoordinator.run_carmack_critic
    (designContent : Option String) (iteration : Nat) : CriticResult :=
  let content := designContent.getD ""
  let heading_count := headingCount content
  let length := wordCount content
  let score := min 10 (4 + heading_count + length / 200)
  let issues :=
    (if heading_count < 3 then ["Add more structured sections to the design."] else []) ++
    (if strContains content.toLower "performance" = false then
      ["Explicitly discuss performance considerations."] else [])
  { persona := "john_carmack"
    score := score
    issues := issues
    suggestions := "Iterate on the architecture and quantify trade-offs."
    iteration := iteration }

/-- A small concrete classifier pack used for concrete instances. -/
def regexPackW : ClassifierPack :=
  { name := "codex", stability_polls := 3
    idle_regexes := [fun s => strContains s "$ "]
    busy_regexes := [fun s => strContains s "working"]
    confirm_regexes := [fun s => strContains s "Proceed?"]
    error_regexes := [fun s => strContains s "Traceback"] }

/-! ### Projections on runtime outcomes, for stating results -/

/-- The database after a successful `_finalize_result` (or batch step). -/
def okDb : Except Unit (RuntimeState × DB × List TaskEvent) → Option DB
  | .ok out => some out.2.1
  | .error _ => none

/-- The runtime state after a successful `_finalize_result` (or batch step). -/
def okState : Except Unit (RuntimeState × DB × List TaskEvent) → Option RuntimeState
  | .ok out => some out.1
  | .error _ => none

/-- The database after a successful `_process_lines` batch. -/
def okLinesDb : Except Unit (RuntimeState × DB) → Option DB
  | .ok out => some out.2
  | .error _ => none

/-- The runtime state after a successful `_process_lines` batch. -/
def okLinesState : Except Unit (RuntimeState × DB) → Option RuntimeState
  | .ok out => some out.1
  | .error _ => none

/-! ### Concrete fixtures used in concrete instances -/

/-- A running task bound to worker `w1` and flow `f1`. -/
def taskW : Task :=
  { id := "t1", worker_id := "w1", flow_id := some "f1"
    status := TaskStatus.running, result_json := none, error_message := none
    started_at := some 5, finished_at := none }

/-- The flow `f1` supervising `taskW`. -/
def flowW : Flow :=
  { id := "f1", status := FlowStatus.running, worker_id := "w1", result := none }

/-- The worker `w1` hosting `taskW`. -/
def workerW : Worker :=
  { id := "w1", status := WorkerStatus.busy, last_seen_at := some 1 }

/-- A database holding `taskW`, `flowW` and `workerW`. -/
def dbW : DB := { tasks := [taskW], flows := [flowW], workers := [workerW], events := [] }

/-- An empty database. -/
def dbEmpty : DB := { tasks := [], flows := [], workers := [], events := [] }

/-- A runtime state collecting for `t1` whose buffered payload reports a
failure with an empty-string error field. -/
def stC1 : RuntimeState :=
  { collecting_task_id := some "t1"
    result_lines := ["\x7b\"status\": \"failed\", \"error\": \"\"\x7d"]
    running_tasks := ["t1"] }

/-! ## Theorems -/

/-! ### Generic helper lemmas -/

theorem find_update_keyed {α : Type} (key : α → String) (xs : List α) (k : String)
    (x2 : α) (h2 : key x2 = k) (x : α)
    (hf : xs.find? (fun u => key u == k) = some x) :
    (xs.map (fun u => if key u = key x2 then x2 else u)).find? (fun u => key u == k)
      = some x2 := by
  induction xs with
  | nil => simp at hf
  | cons a as ih =>
    by_cases ha : key a = k
    · rw [List.map_cons, if_pos (by rw [ha, h2])]
      exact List.find?_cons_of_pos _ (by simp [h2])
    · rw [List.map_cons, if_neg (by rw [h2]; exact ha)]
      rw [List.find?_cons_of_neg _ (by simp [ha])]
      rw [List.find?_cons_of_neg _ (by simp [ha])] at hf
      exact ih hf

theorem findTask_some_id (db : DB) (tid : String) (task : Task)
    (h : findTask db tid = some task) : task.id = tid := by
  have := List.find?_some (p := fun (t : Task) => t.id == tid)
    (by simpa [findTask] using h)
  simpa [beq_iff_eq] using this

theorem findFlow_some_id (db : DB) (fid : String) (flow : Flow)
    (h : findFlow db fid = some flow) : flow.id = fid := by
  have := List.find?_some (p := fun (f : Flow) => f.id == fid)
    (by simpa [findFlow] using h)
  simpa [beq_iff_eq] using this

/-! ### Claim C6: tmux capture cursor -/

/-- Claim C6: for every capture, `TmuxController.capture_pane` returns
`new_text = full_text[last_size:]` when `len(full_text) ≥ last_size` and
`new_text = full_text` otherwise (the pane-cleared case); after the call the
cursor equals `len(full_text)`, and the cursor starts at 0 on construction. -/
theorem capture_pane_cursor_spec (st : TmuxControllerState) (text : String) :
    (text.length ≥ st.last_size →
      (TmuxController.capture_pane st text).1.new_text = text.drop st.last_size)
    ∧ (¬ text.length ≥ st.last_size →
      (TmuxController.capture_pane st text).1.new_text = text)
    ∧ (TmuxController.capture_pane st text).2.last_size = text.length
    ∧ TmuxController.init.last_size = 0 := by
  refine ⟨fun h => ?_, fun h => ?_, rfl, rfl⟩
  · simp only [TmuxController.capture_pane, if_pos h]
  · simp only [TmuxController.capture_pane, if_neg h]

/-- Concrete instance of `capture_pane_cursor_spec`: with cursor 1 on pane
text of length 3 the delta branch fires; with cursor 5 the cleared-pane
branch fires. -/
theorem capture_pane_cursor_spec_witness :
    (TmuxController.capture_pane { last_size := 1 } "abc").1.new_text = "abc".drop 1
    ∧ (TmuxController.capture_pane { last_size := 5 } "abc").1.new_text = "abc" :=
  ⟨(capture_pane_cursor_spec { last_size := 1 } "abc").1 (by decide),
   (capture_pane_cursor_spec { last_size := 5 } "abc").2.1 (by decide)⟩

/-! ### Claim C7: design-refinement critic score -/

/-- Claim C7: the critic score is a pure function of the design.md content:
`score = min(10, 4 + heading_count + word_count / 200)` with `heading_count`
the number of `#` characters and `word_count` the number of
whitespace-separated words; a missing file reads as empty content and scores
4.  The score does not depend on the iteration index. -/
theorem carmack_critic_score_formula (c : String) (i j : Nat) :
    (DesignRefinementCoordinator.run_carmack_critic (some c) i).score
        = min 10 (4 + headingCount c + wordCount c / 200)
    ∧ (DesignRefinementCoordinator.run_carmack_critic none j).score = 4
    ∧ (DesignRefinementCoordinator.run_carmack_critic (some c) i).score
        = (DesignRefinementCoordinator.run_carmack_critic (some c) j).score := by
  refine ⟨rfl, ?_, rfl⟩
  rfl

/-! ### Claim C8: regex classifier precedence -/

/-- Claim C8: `RegexClassifier.classify` is a pure function of the pack and
the text, with first-match-wins precedence ERROR → NEEDS_CONFIRMATION → BUSY
→ READY-on-idle → READY-by-default; an empty pack classifies every text as
READY. -/
theorem regex_classifier_precedence (pack : ClassifierPack) (text : String) :
    (matchAny pack.error_regexes text = true →
      (RegexClassifier.classify pack text).state = "ERROR")
    ∧ (matchAny pack.error_regexes text = false →
        matchAny pack.confirm_regexes text = true →
        (RegexClassifier.classify pack text).state = "NEEDS_CONFIRMATION")
    ∧ (matchAny pack.error_regexes text = false →
        matchAny pack.confirm_regexes text = false →
        matchAny pack.busy_regexes text = true →
        (RegexClassifier.classify pack text).state = "BUSY")
    ∧ (matchAny pack.error_regexes text = false →
        matchAny pack.confirm_regexes text = false →
        matchAny pack.busy_regexes text = false →
        matchAny pack.idle_regexes text = true →
        RegexClassifier.classify pack text =
          { state := "READY", summary := "Idle prompt detected", actions_needed := none })
    ∧ (matchAny pack.error_regexes text = false →
        matchAny pack.confirm_regexes text = false →
        matchAny pack.busy_regexes text = false →
        matchAny pack.idle_regexes text = false →
        RegexClassifier.classify pack text =
          { state := "READY", summary := "No activity detected in snapshot",
            actions_needed := none })
    ∧ (pack.error_regexes = [] → pack.confirm_regexes = [] →
        pack.busy_regexes = [] → pack.idle_regexes = [] →
        (RegexClassifier.classify pack text).state = "READY") := by
  unfold RegexClassifier.classify
  refine ⟨?_, ?_, ?_, ?_, ?_, ?_⟩ <;> intros <;> simp only [*] <;> simp [matchAny]

/-- Concrete instance of `regex_classifier_precedence` on a small pack:
an error cue wins over a busy cue, and a text matching nothing is READY. -/
theorem regex_classifier_precedence_witness :
    (RegexClassifier.classify regexPackW "Traceback while working").state = "ERROR"
    ∧ RegexClassifier.classify regexPackW "quiet pane" =
        { state := "READY", summary := "No activity detected in snapshot",
          actions_needed := none } :=
  ⟨(regex_classifier_precedence regexPackW "Traceback while working").1 (by decide),
   (regex_classifier_precedence regexPackW "quiet pane").2.2.2.2.1 (by decide) (by decide)
     (by decide) (by decide)⟩

/-! ### Claim C5: pane classification discipline -/

theorem countClassified_cons (b : Bool) (bs : List Bool) :
    countClassified (b :: bs) = (if b then 1 else 0) + countClassified bs := by
  cases b <;> simp [countClassified, Nat.add_comm]

theorem process_pane_classified_into (classifier : String → ClassificationResult)
    (stripped : String) (ps : PaneState) (h : String) (ts : Nat)
    (hc : (PtyWatcher.process_pane classifier stripped ps h ts).2 = true) :
    (PtyWatcher.process_pane classifier stripped ps h ts).1.last_classified_hash
      = some h := by
  unfold PtyWatcher.process_pane at *
  by_cases h1 : ps.last_snapshot_hash ≠ some h
  · rw [if_pos h1] at hc
    simp at hc
  · rw [if_neg h1] at hc ⊢
    by_cases h2 : ps.stable_count + 1 ≥ effectiveThreshold ps ∧
        ps.last_classified_hash ≠ some h
    · rw [if_pos h2]
    · rw [if_neg h2] at hc
      simp at hc

theorem process_pane_stays_classified (classifier : String → ClassificationResult)
    (stripped : String) (ps : PaneState) (h : String) (ts : Nat)
    (hch : ps.last_classified_hash = some h) :
    (PtyWatcher.process_pane classifier stripped ps h ts).2 = false
    ∧ (PtyWatcher.process_pane classifier stripped ps h ts).1.last_classified_hash
        = some h := by
  unfold PtyWatcher.process_pane
  by_cases h1 : ps.last_snapshot_hash ≠ some h
  · rw [if_pos h1]
    exact ⟨rfl, hch⟩
  · rw [if_neg h1]
    rw [if_neg (fun hh => hh.2 (by simpa using hch))]
    exact ⟨rfl, hch⟩

theorem pane_run_classified_none (classifier : String → ClassificationResult)
    (stripped : String) (h : String) :
    ∀ (l : List (String × Nat)) (ps : PaneState), (∀ p ∈ l, p.1 = h) →
      ps.last_classified_hash = some h →
      countClassified (PtyWatcher.pane_run classifier stripped ps l).2 = 0 := by
  intro l
  induction l with
  | nil => intro ps _ _; rfl
  | cons p rest ih =>
    intro ps hl hch
    have hp : p.1 = h := hl p (List.mem_cons_self _ _)
    obtain ⟨h1, t1⟩ := p
    subst hp
    have hstep := process_pane_stays_classified classifier stripped ps h1 t1 hch
    simp only [PtyWatcher.pane_run]
    cases hpr : PtyWatcher.process_pane classifier stripped ps h1 t1 with
    | mk ps1 b =>
      rw [hpr] at hstep
      obtain ⟨hb, hch1⟩ := hstep
      subst hb
      have := ih ps1 (fun q hq => hl q (List.mem_cons_of_mem _ hq)) hch1
      cases hrun : PtyWatcher.pane_run classifier stripped ps1 rest with
      | mk ps2 bs =>
        rw [hrun] at this
        rw [countClassified_cons]
        simpa using this

/-- Claim C5: in every polling cycle, a changed snapshot hash resets
`stable_count` to 0, sets the state to BUSY and does not classify; the
classifier runs only when the (incremented) stable count has reached the
effective threshold and the current hash differs from `last_classified_hash`;
consequently, over any run of cycles that all observe the same hash, the
classifier is invoked at most once. -/
theorem pane_classification_discipline (classifier : String → ClassificationResult)
    (stripped : String) :
    (∀ (ps : PaneState) (h : String) (ts : Nat), ps.last_snapshot_hash ≠ some h →
        (PtyWatcher.process_pane classifier stripped ps h ts).1.stable_count = 0
        ∧ (PtyWatcher.process_pane classifier stripped ps h ts).1.state = "BUSY"
        ∧ (PtyWatcher.process_pane classifier stripped ps h ts).2 = false)
    ∧ (∀ (ps : PaneState) (h : String) (ts : Nat),
        (PtyWatcher.process_pane classifier stripped ps h ts).2 = true →
          ps.last_snapshot_hash = some h
          ∧ ps.stable_count + 1 ≥ effectiveThreshold ps
          ∧ ps.last_classified_hash ≠ some h)
    ∧ (∀ (ps : PaneState) (h : String) (l : List (String × Nat)),
        (∀ p ∈ l, p.1 = h) →
        countClassified (PtyWatcher.pane_run classifier stripped ps l).2 ≤ 1) := by
  refine ⟨?_, ?_, ?_⟩
  · intro ps h ts hne
    unfold PtyWatcher.process_pane
    rw [if_pos hne]
    exact ⟨rfl, rfl, rfl⟩
  · intro ps h ts hc
    unfold PtyWatcher.process_pane at hc
    by_cases h1 : ps.last_snapshot_hash ≠ some h
    · rw [if_pos h1] at hc
      simp at hc
    · rw [if_neg h1] at hc
      by_cases h2 : ps.stable_count + 1 ≥ effectiveThreshold ps ∧
          ps.last_classified_hash ≠ some h
      · push_neg at h1
        exact ⟨h1, h2.1, h2.2⟩
      · rw [if_neg h2] at hc
        simp at hc
  · intro ps h l
    induction l generalizing ps with
    | nil => intro _; simp [PtyWatcher.pane_run, countClassified]
    | cons p rest ih =>
      intro hl
      have hp : p.1 = h := hl p (List.mem_cons_self _ _)
      obtain ⟨h1, t1⟩ := p
      subst hp
      simp only [PtyWatcher.pane_run]
      cases hpr : PtyWatcher.process_pane classifier stripped ps h1 t1 with
      | mk ps1 b =>
        cases hrun : PtyWatcher.pane_run classifier stripped ps1 rest with
        | mk ps2 bs =>
          cases b with
          | false =>
            have := ih ps1 (fun q hq => hl q (List.mem_cons_of_mem _ hq))
            rw [hrun] at this
            rw [countClassified_cons]
            simpa using this
          | true =>
            have hch1 : ps1.last_classified_hash = some h1 := by
              have := process_pane_classified_into classifier stripped ps h1 t1
                (by rw [hpr])
              rwa [hpr] at this
            have := pane_run_classified_none classifier stripped h1 rest ps1
              (fun q hq => hl q (List.mem_cons_of_mem _ hq)) hch1
            rw [hrun] at this
            have hbs : countClassified bs = 0 := this
            rw [countClassified_cons]
            simp only [if_true]
            omega

/-- Concrete instance of `pane_classification_discipline`: a pane with no
recorded snapshot hash goes BUSY with a reset counter on the first
observation, and four same-hash cycles classify at most once. -/
theorem pane_classification_discipline_witness :
    ((PtyWatcher.process_pane (fun _ => { state := "READY", summary := "", actions_needed := none })
        "txt" { last_snapshot_hash := none, last_classified_hash := none, stable_count := 7,
                last_change_ts := 0, state := "UNKNOWN", summary := "", actions_needed := none,
                threshold := 2 } "h1" 3).1.state = "BUSY")
    ∧ countClassified
        (PtyWatcher.pane_run (fun _ => { state := "READY", summary := "", actions_needed := none })
          "txt" { last_snapshot_hash := none, last_classified_hash := none, stable_count := 7,
                  last_change_ts := 0, state := "UNKNOWN", summary := "", actions_needed := none,
                  threshold := 2 }
          [("h1", 0), ("h1", 1), ("h1", 2), ("h1", 3)]).2 ≤ 1 :=
  ⟨((pane_classification_discipline _ "txt").1 _ "h1" 3 (by decide)).2.1,
   (pane_classification_discipline _ "txt").2.2 _ "h1" [("h1", 0), ("h1", 1), ("h1", 2), ("h1", 3)]
     (by decide)⟩

/-! ### Runtime helper lemmas -/

theorem failFlowUpdate_tasks (db : DB) (t : Task) (tid : String) (s : TaskStatus) :
    (failFlowUpdate db t tid s).tasks = db.tasks := by
  unfold failFlowUpdate updateFlow
  split
  · split
    · split
      · rfl
      · split <;> rfl
    · rfl
  · rfl

theorem payloadVerdict_obj (kvs : List (String × JsonV)) :
    payloadVerdict (some (JsonV.obj kvs)) =
      (if isFailureStatus (objGet kvs "status") then
        .ok (some (JsonV.obj kvs), TaskStatus.failed, objGet kvs "error")
      else .ok (some (JsonV.obj kvs), TaskStatus.completed, none)) := by
  cases kvs with
  | nil => simp [payloadVerdict, JsonV.truthy, objGet, isFailureStatus]
  | cons a as => simp [payloadVerdict, JsonV.truthy]

theorem payloadVerdict_truthy_nonobj (v : JsonV) (ht : v.truthy = true)
    (ho : v.isObj = false) : payloadVerdict (some v) = .error () := by
  cases v <;> simp_all [payloadVerdict, JsonV.truthy, JsonV.isObj]

theorem payloadVerdict_falsy (v : JsonV) (ht : v.truthy = false) :
    payloadVerdict (some v) = .ok (some v, TaskStatus.completed, none) := by
  cases v <;> simp_all [payloadVerdict, JsonV.truthy, objGet, isFailureStatus]

theorem isFailureStatus_iff (o : Option JsonV) :
    isFailureStatus o = true ↔
      o = some (JsonV.str "failed") ∨ o = some (JsonV.str "error") := by
  cases o with
  | none => simp [isFailureStatus]
  | some v => cases v <;> simp [isFailureStatus]

/-- Reduction of `_finalize_result` when a (truthy) collecting task id is set,
the payload interpretation does not raise, and the task row exists. -/
theorem finalize_result_found (st : RuntimeState) (db : DB) (pending : List TaskEvent)
    (now : Nat) (tid : String) (result : Option JsonV) (status : TaskStatus)
    (errorMessage : Option JsonV) (task : Task)
    (hcol : st.collecting_task_id = some tid) (htid : tid ≠ "")
    (hverdict : payloadVerdict (jsonLoads (String.intercalate "\n" st.result_lines))
      = .ok (result, status, errorMessage))
    (htask : findTask db tid = some task) :
    WorkerRuntime.finalize_result st db pending now =
      .ok (commitFinalize { st with collecting_task_id := none, result_lines := [] }
            db pending now tid task result status errorMessage) := by
  unfold WorkerRuntime.finalize_result
  rw [hcol]
  simp only [if_neg htid, hverdict, htask]

theorem commitFinalize_findTask (st : RuntimeState) (db : DB) (pending : List TaskEvent)
    (now : Nat) (taskId : String) (task : Task) (result : Option JsonV)
    (status : TaskStatus) (errorMessage : Option JsonV)
    (htask : findTask db taskId = some task) :
    findTask (commitFinalize st db pending now taskId task result status errorMessage).2.1
        taskId
      = some (finalizedTask task result status errorMessage now) := by
  have hid : task.id = taskId := findTask_some_id db taskId task htask
  unfold commitFinalize
  cases hW : findWorker (updateTask db (finalizedTask task result status errorMessage now))
      (finalizedTask task result status errorMessage now).worker_id with
  | none =>
      simp only [hW]
      unfold findTask
      rw [show (failFlowUpdate (updateTask db (finalizedTask task result status errorMessage now))
            (finalizedTask task result status errorMessage now) taskId status).tasks
          = (updateTask db (finalizedTask task result status errorMessage now)).tasks
        from failFlowUpdate_tasks _ _ _ _]
      exact find_update_keyed Task.id db.tasks taskId _ hid task
        (by simpa [findTask] using htask)
  | some w =>
      simp only [hW]
      unfold findTask
      rw [show (failFlowUpdate (updateWorker
              (updateTask db (finalizedTask task result status errorMessage now)) _)
            (finalizedTask task result status errorMessage now) taskId status).tasks
          = (updateTask db (finalizedTask task result status errorMessage now)).tasks
        from failFlowUpdate_tasks _ _ _ _]
      exact find_update_keyed Task.id db.tasks taskId _ hid task
        (by simpa [findTask] using htask)

theorem failFlowUpdate_findFlow (db : DB) (t : Task) (tid fid : String) (flow : Flow)
    (hfid : t.flow_id = some fid) (hne : fid ≠ "")
    (hflow : findFlow db fid = some flow) :
    findFlow (failFlowUpdate db t tid TaskStatus.failed) fid =
      some { flow with
        status := FlowStatus.failed
        result := some (JsonV.obj
          [("reason", pyOr t.error_message (JsonV.str "task_failed")),
           ("task_id", JsonV.str tid)]) } := by
  unfold failFlowUpdate
  rw [if_pos rfl, hfid]
  simp only [if_neg hne, hflow]
  unfold findFlow updateFlow
  exact find_update_keyed Flow.id db.flows fid _ (findFlow_some_id db fid flow hflow) flow
    (by simpa [findFlow] using hflow)

theorem commitFinalize_findFlow (st : RuntimeState) (db : DB) (pending : List TaskEvent)
    (now : Nat) (taskId : String) (task : Task) (result : Option JsonV)
    (errorMessage : Option JsonV) (fid : String) (flow : Flow)
    (hfid : task.flow_id = some fid) (hne : fid ≠ "")
    (hflow : findFlow db fid = some flow) :
    findFlow (commitFinalize st db pending now taskId task result TaskStatus.failed
        errorMessage).2.1 fid
      = some { flow with
          status := FlowStatus.failed
          result := some (JsonV.obj
            [("reason", pyOr errorMessage (JsonV.str "task_failed")),
             ("task_id", JsonV.str taskId)]) } := by
  unfold commitFinalize
  cases hW : findWorker (updateTask db (finalizedTask task result TaskStatus.failed
      errorMessage now))
      (finalizedTask task result TaskStatus.failed errorMessage now).worker_id with
  | none =>
      simp only [hW]
      exact failFlowUpdate_findFlow _ _ taskId fid flow hfid hne
        (by simpa [findFlow, updateTask] using hflow)
  | some w =>
      simp only [hW]
      exact failFlowUpdate_findFlow _ _ taskId fid flow hfid hne
        (by simpa [findFlow, updateTask, updateWorker] using hflow)

/-! ### Claim C3: unparseable payloads fail the task -/

/-- Claim C3: a payload between sentinels that is not parseable JSON
(including the empty payload, an instance exhibited in the concrete witness)
finalizes the collecting task as failed with error message exactly
"Invalid JSON result from tool", a null result, and finished_at set. -/
theorem finalize_invalid_json_marks_failed (st : RuntimeState) (db : DB)
    (pending : List TaskEvent) (now : Nat) (tid : String) (task : Task)
    (hcol : st.collecting_task_id = some tid) (htid : tid ≠ "")
    (hparse : jsonLoads (String.intercalate "\n" st.result_lines) = none)
    (htask : findTask db tid = some task) :
    ((okDb (WorkerRuntime.finalize_result st db pending now)).bind
        (fun d => findTask d tid)).map Task.status = some TaskStatus.failed
    ∧ ((okDb (WorkerRuntime.finalize_result st db pending now)).bind
        (fun d => findTask d tid)).map Task.error_message
      = some (some (JsonV.str "Invalid JSON result from tool"))
    ∧ ((okDb (WorkerRuntime.finalize_result st db pending now)).bind
        (fun d => findTask d tid)).map Task.result_json = some none
    ∧ ((okDb (WorkerRuntime.finalize_result st db pending now)).bind
        (fun d => findTask d tid)).map Task.finished_at = some (some now) := by
  have hv : payloadVerdict (jsonLoads (String.intercalate "\n" st.result_lines))
      = .ok (none, TaskStatus.failed, some (JsonV.str "Invalid JSON result from tool")) := by
    rw [hparse]
    rfl
  rw [finalize_result_found st db pending now tid none TaskStatus.failed
      (some (JsonV.str "Invalid JSON result from tool")) task hcol htid hv htask]
  simp only [okDb, Option.some_bind]
  rw [commitFinalize_findTask _ _ _ _ _ _ _ _ _ htask]
  simp [finalizedTask]

/-- Concrete instance of `finalize_invalid_json_marks_failed` at the empty
(zero-byte) payload: no buffered lines, so the joined payload text is empty
and fails to parse. -/
theorem finalize_invalid_json_marks_failed_witness :
    ((okDb (WorkerRuntime.finalize_result
        { collecting_task_id := some "t1", result_lines := [], running_tasks := ["t1"] }
        dbW [] 9)).bind (fun d => findTask d "t1")).map Task.status
      = some TaskStatus.failed
    ∧ ((okDb (WorkerRuntime.finalize_result
        { collecting_task_id := some "t1", result_lines := [], running_tasks := ["t1"] }
        dbW [] 9)).bind (fun d => findTask d "t1")).map Task.error_message
      = some (some (JsonV.str "Invalid JSON result from tool"))
    ∧ ((okDb (WorkerRuntime.finalize_result
        { collecting_task_id := some "t1", result_lines := [], running_tasks := ["t1"] }
        dbW [] 9)).bind (fun d => findTask d "t1")).map Task.result_json = some none
    ∧ ((okDb (WorkerRuntime.finalize_result
        { collecting_task_id := some "t1", result_lines := [], running_tasks := ["t1"] }
        dbW [] 9)).bind (fun d => findTask d "t1")).map Task.finished_at
      = some (some 9) :=
  finalize_invalid_json_marks_failed
    { collecting_task_id := some "t1", result_lines := [], running_tasks := ["t1"] }
    dbW [] 9 "t1" taskW rfl (by decide) rfl rfl

/-! ### Claim C2: which status strings count as failure -/

/-- Claim C2 as stated is false on the code: a payload whose status field is
the string "done" (which is neither "failed" nor "error", and not "ok"
either) finalizes the task as completed, not failed. -/
theorem finalize_status_done_completed_counterexample :
    ((okDb (WorkerRuntime.finalize_result
        { collecting_task_id := some "t1"
          result_lines := ["\x7b\"status\": \"done\"\x7d"]
          running_tasks := ["t1"] } dbW [] 9)).bind
      (fun d => findTask d "t1")).map Task.status = some TaskStatus.completed
    ∧ some TaskStatus.completed ≠ some TaskStatus.failed :=
  ⟨rfl, by decide⟩

/-- Claim C2 (amended): only the status strings "failed" and "error" are
treated as failure; a payload whose status field is any other string (such as
"done", "success", or "ok") finalizes the task as completed. -/
theorem finalize_nonfailure_status_completed (st : RuntimeState) (db : DB)
    (pending : List TaskEvent) (now : Nat) (tid : String)
    (kvs : List (String × JsonV)) (s : String) (task : Task)
    (hcol : st.collecting_task_id = some tid) (htid : tid ≠ "")
    (hparse : jsonLoads (String.intercalate "\n" st.result_lines)
      = some (JsonV.obj kvs))
    (hstat : objGet kvs "status" = some (JsonV.str s))
    (h1 : s ≠ "failed") (h2 : s ≠ "error")
    (htask : findTask db tid = some task) :
    ((okDb (WorkerRuntime.finalize_result st db pending now)).bind
        (fun d => findTask d tid)).map Task.status = some TaskStatus.completed := by
  have hFS : isFailureStatus (objGet kvs "status") = false := by
    rw [hstat]
    simp [isFailureStatus, h1, h2]
  have hv : payloadVerdict (jsonLoads (String.intercalate "\n" st.result_lines))
      = .ok (some (JsonV.obj kvs), TaskStatus.completed, none) := by
    rw [hparse, payloadVerdict_obj, if_neg (by simp [hFS])]
  rw [finalize_result_found st db pending now tid (some (JsonV.obj kvs))
      TaskStatus.completed none task hcol htid hv htask]
  simp only [okDb, Option.some_bind]
  rw [commitFinalize_findTask _ _ _ _ _ _ _ _ _ htask]
  simp [finalizedTask]

/-- Concrete instance of `finalize_nonfailure_status_completed` at the status
string "success". -/
theorem finalize_nonfailure_status_completed_witness :
    ((okDb (WorkerRuntime.finalize_result
        { collecting_task_id := some "t1"
          result_lines := ["\x7b\"status\": \"success\"\x7d"]
          running_tasks := ["t1"] } dbW [] 9)).bind
      (fun d => findTask d "t1")).map Task.status = some TaskStatus.completed :=
  finalize_nonfailure_status_completed
    { collecting_task_id := some "t1"
      result_lines := ["\x7b\"status\": \"success\"\x7d"]
      running_tasks := ["t1"] }
    dbW [] 9 "t1" [("status", JsonV.str "success")] "success" taskW
    rfl (by decide) rfl rfl (by decide) (by decide) rfl

/-! ### Claim C1: object-payload finalization and flow failure -/

/-- Claim C1 as stated is false on the code at one point: with payload
`{"status": "failed", "error": ""}` the task error message is the empty
string (not null), yet the flow failure reason is "task_failed", because the
code applies Python `or` (falsy, not only null, selects the default). -/
theorem finalize_flow_reason_counterexample :
    ((okDb (WorkerRuntime.finalize_result stC1 dbW [] 9)).bind
        (fun d => findTask d "t1")).map Task.error_message
      = some (some (JsonV.str ""))
    ∧ ((okDb (WorkerRuntime.finalize_result stC1 dbW [] 9)).bind
        (fun d => findFlow d "f1")).map Flow.result
      = some (some (JsonV.obj [("reason", JsonV.str "task_failed"),
                               ("task_id", JsonV.str "t1")]))
    ∧ JsonV.str "task_failed" ≠ JsonV.str ""
    ∧ some (JsonV.str "") ≠ (none : Option JsonV) :=
  ⟨rfl, rfl,
   fun h => absurd (JsonV.str.inj h) (by decide),
   by simp⟩

/-- Claim C1 (amended): when the payload parses to a JSON object, the task is
marked failed with error message equal to the payload error field (null when
absent) exactly when the status field is the string "failed" or "error", and
completed with a null error message otherwise; when the final status is
failed and the task carries a flow id naming an existing flow, that flow
becomes failed with result reason `error_message or "task_failed"` (the
default applies when the error message is null **or falsy, such as the empty
string**) and the task id. -/
theorem finalize_object_payload_outcome (st : RuntimeState) (db : DB)
    (pending : List TaskEvent) (now : Nat) (tid : String)
    (kvs : List (String × JsonV)) (task : Task)
    (hcol : st.collecting_task_id = some tid) (htid : tid ≠ "")
    (hparse : jsonLoads (String.intercalate "\n" st.result_lines)
      = some (JsonV.obj kvs))
    (htask : findTask db tid = some task) :
    ((objGet kvs "status" = some (JsonV.str "failed")
        ∨ objGet kvs "status" = some (JsonV.str "error")) →
      ((okDb (WorkerRuntime.finalize_result st db pending now)).bind
          (fun d => findTask d tid)).map Task.status = some TaskStatus.failed
      ∧ ((okDb (WorkerRuntime.finalize_result st db pending now)).bind
          (fun d => findTask d tid)).map Task.error_message
        = some (objGet kvs "error"))
    ∧ (¬ (objGet kvs "status" = some (JsonV.str "failed")
        ∨ objGet kvs "status" = some (JsonV.str "error")) →
      ((okDb (WorkerRuntime.finalize_result st db pending now)).bind
          (fun d => findTask d tid)).map Task.status = some TaskStatus.completed
      ∧ ((okDb (WorkerRuntime.finalize_result st db pending now)).bind
          (fun d => findTask d tid)).map Task.error_message = some none)
    ∧ (∀ (fid : String) (flow : Flow), task.flow_id = some fid → fid ≠ "" →
        findFlow db fid = some flow →
        (objGet kvs "status" = some (JsonV.str "failed")
          ∨ objGet kvs "status" = some (JsonV.str "error")) →
        ((okDb (WorkerRuntime.finalize_result st db pending now)).bind
            (fun d => findFlow d fid)).map Flow.status = some FlowStatus.failed
        ∧ ((okDb (WorkerRuntime.finalize_result st db pending now)).bind
            (fun d => findFlow d fid)).map Flow.result
          = some (some (JsonV.obj
              [("reason", pyOr (objGet kvs "error") (JsonV.str "task_failed")),
               ("task_id", JsonV.str tid)]))) := by
  cases hFS : isFailureStatus (objGet kvs "status") with
  | false =>
    have hnp : ¬ (objGet kvs "status" = some (JsonV.str "failed")
        ∨ objGet kvs "status" = some (JsonV.str "error")) := by
      rw [← isFailureStatus_iff]
      simp [hFS]
    have hv : payloadVerdict (jsonLoads (String.intercalate "\n" st.result_lines))
        = .ok (some (JsonV.obj kvs), TaskStatus.completed, none) := by
      rw [hparse, payloadVerdict_obj, if_neg (by simp [hFS])]
    rw [finalize_result_found st db pending now tid (some (JsonV.obj kvs))
        TaskStatus.completed none task hcol htid hv htask]
    refine ⟨fun hp => absurd hp hnp, fun _ => ?_, fun fid flow _ _ _ hp => absurd hp hnp⟩
    simp only [okDb, Option.some_bind]
    rw [commitFinalize_findTask _ _ _ _ _ _ _ _ _ htask]
    exact ⟨rfl, rfl⟩
  | true =>
    have hp : objGet kvs "status" = some (JsonV.str "failed")
        ∨ objGet kvs "status" = some (JsonV.str "error") :=
      (isFailureStatus_iff _).mp hFS
    have hv : payloadVerdict (jsonLoads (String.intercalate "\n" st.result_lines))
        = .ok (some (JsonV.obj kvs), TaskStatus.failed, objGet kvs "error") := by
      rw [hparse, payloadVerdict_obj, if_pos (by simp [hFS])]
    rw [finalize_result_found st db pending now tid (some (JsonV.obj kvs))
        TaskStatus.failed (objGet kvs "error") task hcol htid hv htask]
    refine ⟨fun _ => ?_, fun hn => absurd hp hn, fun fid flow hfid hne hflow _ => ?_⟩
    · simp only [okDb, Option.some_bind]
      rw [commitFinalize_findTask _ _ _ _ _ _ _ _ _ htask]
      exact ⟨rfl, rfl⟩
    · simp only [okDb, Option.some_bind]
      rw [commitFinalize_findFlow _ _ _ _ _ _ _ _ _ _ hfid hne hflow]
      exact ⟨rfl, rfl⟩

/-- Concrete instance of `finalize_object_payload_outcome` at the payload
with status "failed" and an empty-string error: the task fails with the
empty-string error message, and the linked flow fails with the defaulted
reason "task_failed". -/
theorem finalize_object_payload_outcome_witness :
    ((okDb (WorkerRuntime.finalize_result stC1 dbW [] 9)).bind
        (fun d => findTask d "t1")).map Task.status = some TaskStatus.failed
    ∧ ((okDb (WorkerRuntime.finalize_result stC1 dbW [] 9)).bind
        (fun d => findFlow d "f1")).map Flow.status = some FlowStatus.failed := by
  have h := finalize_object_payload_outcome stC1 dbW [] 9 "t1"
      [("status", JsonV.str "failed"), ("error", JsonV.str "")] taskW
      rfl (by decide) rfl rfl
  exact ⟨(h.1 (Or.inl rfl)).1, (h.2.2 "f1" flowW rfl (by decide) rfl (Or.inl rfl)).1⟩

/-! ### Claim C9: truthy non-object payloads raise AttributeError -/

/-- Claim C9: a payload that parses to a truthy non-object JSON value makes
`_finalize_result` raise an uncaught `AttributeError` at
`(result or \x7b\x7d).get("status")`, so the task reaches no terminal status
and the batch processing of lines aborts; a falsy non-object value (null, 0,
the empty string, the empty array) finalizes the task as completed with a
null error message and the parsed value stored as the result. -/
theorem finalize_truthy_nonobject_attribute_error (st : RuntimeState) (db : DB)
    (pending : List TaskEvent) (now : Nat) (tid : String) (v : JsonV)
    (hcol : st.collecting_task_id = some tid) (htid : tid ≠ "")
    (hparse : jsonLoads (String.intercalate "\n" st.result_lines) = some v)
    (hobj : v.isObj = false) :
    (v.truthy = true →
      WorkerRuntime.finalize_result st db pending now = .error ()
      ∧ WorkerRuntime.process_lines [sentinel_end] st db now = .error ())
    ∧ (v.truthy = false → ∀ task, findTask db tid = some task →
      ((okDb (WorkerRuntime.finalize_result st db pending now)).bind
          (fun d => findTask d tid)).map Task.status = some TaskStatus.completed
      ∧ ((okDb (WorkerRuntime.finalize_result st db pending now)).bind
          (fun d => findTask d tid)).map Task.error_message = some none
      ∧ ((okDb (WorkerRuntime.finalize_result st db pending now)).bind
          (fun d => findTask d tid)).map Task.result_json = some (some v)) := by
  constructor
  · intro ht
    have hv := payloadVerdict_truthy_nonobj v ht hobj
    have hfe : ∀ p : List TaskEvent,
        WorkerRuntime.finalize_result st db p now = .error () := by
      intro p
      unfold WorkerRuntime.finalize_result
      rw [hcol]
      simp only [if_neg htid, hparse, hv]
    refine ⟨hfe pending, ?_⟩
    have hs1 : strContains (pyStrip sentinel_end) sentinel_start = false := by decide
    have hs2 : strContains (pyStrip sentinel_end) sentinel_end = true := by decide
    unfold WorkerRuntime.process_lines WorkerRuntime.process_lines_aux
    simp only [hs1, hs2, hfe []]
    simp
  · intro ht task htask
    have hv0 := payloadVerdict_falsy v ht
    have hv : payloadVerdict (jsonLoads (String.intercalate "\n" st.result_lines))
        = .ok (some v, TaskStatus.completed, none) := by
      rw [hparse, hv0]
    rw [finalize_result_found st db pending now tid (some v)
        TaskStatus.completed none task hcol htid hv htask]
    simp only [okDb, Option.some_bind]
    rw [commitFinalize_findTask _ _ _ _ _ _ _ _ _ htask]
    exact ⟨rfl, rfl, rfl⟩

/-- Concrete instance of `finalize_truthy_nonobject_attribute_error`: the
payload `"x"` (a truthy JSON string) makes finalization raise, and the
payload `[]` (a falsy JSON array) finalizes as completed. -/
theorem finalize_truthy_nonobject_attribute_error_witness :
    WorkerRuntime.finalize_result
      { collecting_task_id := some "t1", result_lines := ["\"x\""],
        running_tasks := ["t1"] } dbW [] 9 = .error ()
    ∧ ((okDb (WorkerRuntime.finalize_result
        { collecting_task_id := some "t1", result_lines := ["[]"],
          running_tasks := ["t1"] } dbW [] 9)).bind
      (fun d => findTask d "t1")).map Task.status = some TaskStatus.completed :=
  ⟨((finalize_truthy_nonobject_attribute_error
      { collecting_task_id := some "t1", result_lines := ["\"x\""],
        running_tasks := ["t1"] } dbW [] 9 "t1" (JsonV.str "x")
      rfl (by decide) rfl rfl).1 rfl).1,
   ((finalize_truthy_nonobject_attribute_error
      { collecting_task_id := some "t1", result_lines := ["[]"],
        running_tasks := ["t1"] } dbW [] 9 "t1" (JsonV.arr [])
      rfl (by decide) rfl rfl).2 rfl taskW rfl).1⟩

/-! ### Claim C10: missing task row leaves the FIFO intact -/

/-- Claim C10: when a sentinel_end fires while collecting for a task id that
has no row in storage, `_finalize_result` clears the collecting state and
writes nothing (database and pending events unchanged), and it does not pop
the FIFO, so the id remains the head and a subsequent sentinel_start line
binds it as the collecting task again. -/
theorem finalize_missing_task_row_frame (st : RuntimeState) (db : DB)
    (pending : List TaskEvent) (now : Nat) (tid : String)
    (trip : Option JsonV × TaskStatus × Option JsonV)
    (hcol : st.collecting_task_id = some tid) (htid : tid ≠ "")
    (hverdict : payloadVerdict (jsonLoads (String.intercalate "\n" st.result_lines))
      = .ok trip)
    (htask : findTask db tid = none)
    (hhead : st.running_tasks.head? = some tid) :
    WorkerRuntime.finalize_result st db pending now =
      .ok ({ st with collecting_task_id := none, result_lines := [] }, db, pending)
    ∧ ({ st with collecting_task_id := none, result_lines := [] }
        : RuntimeState).running_tasks.head? = some tid
    ∧ WorkerRuntime.process_lines_aux [sentinel_start]
        { st with collecting_task_id := none, result_lines := [] } db pending now
      = .ok ({ st with collecting_task_id := some tid, result_lines := [] },
          db, pending) := by
  obtain ⟨r, s, e⟩ := trip
  refine ⟨?_, hhead, ?_⟩
  · unfold WorkerRuntime.finalize_result
    rw [hcol]
    simp only [if_neg htid, hverdict, htask]
  · have hss : strContains (pyStrip sentinel_start) sentinel_start = true := by decide
    unfold WorkerRuntime.process_lines_aux
    simp only [hss, if_pos]
    unfold WorkerRuntime.process_lines_aux
    rw [show ({ st with collecting_task_id := none, result_lines := [] }
        : RuntimeState).running_tasks.head? = some tid from hhead]

/-- Concrete instance of `finalize_missing_task_row_frame`: collecting for
the id `t9`, which has no task row in `dbW`; the FIFO keeps `t9` at its head
and a new sentinel_start rebinds it. -/
theorem finalize_missing_task_row_frame_witness :
    WorkerRuntime.finalize_result
        { collecting_task_id := some "t9", result_lines := [], running_tasks := ["t9"] }
        dbW [] 4 =
      .ok ({ collecting_task_id := none, result_lines := [], running_tasks := ["t9"] },
        dbW, [])
    ∧ WorkerRuntime.process_lines_aux [sentinel_start]
        { collecting_task_id := none, result_lines := [], running_tasks := ["t9"] }
        dbW [] 4
      = .ok ({ collecting_task_id := some "t9", result_lines := [], running_tasks := ["t9"] },
          dbW, []) := by
  have h := finalize_missing_task_row_frame
    { collecting_task_id := some "t9", result_lines := [], running_tasks := ["t9"] }
    dbW [] 4 "t9"
    (none, TaskStatus.failed, some (JsonV.str "Invalid JSON result from tool"))
    rfl (by decide) rfl rfl rfl
  exact ⟨h.1, h.2.2⟩

/-! ### Claim C4: sentinel_start with an empty FIFO -/

theorem process_lines_aux_empty_fifo (payload : List String) (endLine : String)
    (db : DB) (pending : List TaskEvent) (now : Nat)
    (hp : ∀ l ∈ payload, strContains (pyStrip l) sentinel_start = false
        ∧ strContains (pyStrip l) sentinel_end = false)
    (he1 : strContains (pyStrip endLine) sentinel_start = false)
    (he2 : strContains (pyStrip endLine) sentinel_end = true) :
    WorkerRuntime.process_lines_aux (payload ++ [endLine])
        { collecting_task_id := none, result_lines := [], running_tasks := [] }
        db pending now
      = .ok ({ collecting_task_id := none, result_lines := [], running_tasks := [] },
          db, pending) := by
  induction payload with
  | nil =>
      rw [List.nil_append]
      unfold WorkerRuntime.process_lines_aux
      simp only [he1, he2]
      simp [WorkerRuntime.finalize_result, WorkerRuntime.process_lines_aux]
  | cons l ls ih =>
      have h1 := (hp l (List.mem_cons_self _ _)).1
      have h2 := (hp l (List.mem_cons_self _ _)).2
      rw [List.cons_append]
      unfold WorkerRuntime.process_lines_aux
      simp only [h1, h2]
      simp only [optStrTruthy]
      simp only [Bool.false_eq_true, if_false]
      exact ih (fun q hq => hp q (List.mem_cons_of_mem _ hq))

/-- Claim C4 as stated is false on the code at one point: after a
sentinel_start with an empty FIFO, a following payload line is **not**
appended to the line buffer (the collecting task id is null, which is falsy,
so the buffering branch is skipped); the buffer stays empty. -/
theorem empty_fifo_payload_not_buffered_counterexample :
    (okLinesState (WorkerRuntime.process_lines [sentinel_start, "hello"]
        { collecting_task_id := none, result_lines := [], running_tasks := [] }
        dbEmpty 0)).map RuntimeState.result_lines = some []
    ∧ (okLinesState (WorkerRuntime.process_lines [sentinel_start, "hello"]
        { collecting_task_id := none, result_lines := [], running_tasks := [] }
        dbEmpty 0)).map RuntimeState.result_lines ≠ some ["hello"] :=
  ⟨rfl, by decide⟩

/-- Claim C4 (amended): when a sentinel_start line arrives while the FIFO of
pending task ids is empty, the collecting task id becomes null; the payload
lines that follow are **discarded** (not buffered — and, the FIFO being
empty, they produce no stdout events either); the subsequent sentinel_end
finalization is a no-op, and the whole batch leaves the database — task rows
included — unchanged. -/
theorem sentinel_start_empty_fifo_discards (startLine endLine : String)
    (payload : List String) (st : RuntimeState) (db : DB) (now : Nat)
    (hs : strContains (pyStrip startLine) sentinel_start = true)
    (hp : ∀ l ∈ payload, strContains (pyStrip l) sentinel_start = false
        ∧ strContains (pyStrip l) sentinel_end = false)
    (he1 : strContains (pyStrip endLine) sentinel_start = false)
    (he2 : strContains (pyStrip endLine) sentinel_end = true)
    (hrun : st.running_tasks = []) :
    WorkerRuntime.process_lines (startLine :: (payload ++ [endLine])) st db now
      = .ok ({ st with collecting_task_id := none, result_lines := [] }, db) := by
  unfold WorkerRuntime.process_lines
  rw [if_neg (by simp)]
  unfold WorkerRuntime.process_lines_aux
  simp only [hs, if_pos]
  rw [hrun]
  simp only [List.head?_nil]
  rw [process_lines_aux_empty_fifo payload endLine db [] now hp he1 he2]
  simp [List.append_nil]

/-- Concrete instance of `sentinel_start_empty_fifo_discards`: a start line,
one payload line and an end line against an empty FIFO leave the database
untouched and the buffer empty. -/
theorem sentinel_start_empty_fifo_discards_witness :
    WorkerRuntime.process_lines [sentinel_start, "hello", sentinel_end]
        { collecting_task_id := some "stale", result_lines := ["old"], running_tasks := [] }
        dbW 3
      = .ok ({ collecting_task_id := none, result_lines := [], running_tasks := [] },
          dbW) := by
  have h := sentinel_start_empty_fifo_discards sentinel_start sentinel_end ["hello"]
    { collecting_task_id := some "stale", result_lines := ["old"], running_tasks := [] }
    dbW 3 (by decide) (by decide) (by decide) (by decide) rfl
  exact h

end AgentBay
